import Mathlib

/-!
Verification of the dcd (dacite-style) schema-directed value coercion engine.

This file is a shallow embedding of the core of the repository:
  - `src/dacite/types.py`  (type predicates, the value transformer `transform_value`,
    and the runtime matcher `is_instance`)
  - `src/dacite/core.py`   (`from_dict`, `_build_value`, `_build_value_for_union`,
    `_build_value_for_collection`)
  - `src/dacite/config.py` (`Config`)

Declared types are modelled by the inductive `DType`, runtime values by `Val`.
The embedded universe covers scalars (int, str, bool, NoneType), unions
(including Optional), generic collections (list, set, dict, fixed and
variadic tuples) and `Any`.  Record (dataclass) types appear only at the top
level of `from_dict` (fields of a record draw their declared types from this
universe); the nested-dataclass branch of `_build_value` (core.py:103-106),
`InitVar`/`NewType`/`Literal`/`Type[X]` handling and the float/complex numeric
tower are outside the embedded universe and are noted at the spots where the
source consults them.

Python exceptions are modelled by `DErr`: the dacite error hierarchy plus a
`pyError` constructor for builtin runtime errors (TypeError, ValueError,
KeyError), which matter because `_build_value_for_union` catches unions of
exception classes of different breadth.  Fallible code returns `Except DErr`.

User-supplied type hooks are modelled as total functions `Val → Val`; the cast
list holds runtime classes (`CastClass`).  The helper modules of the
repository that are not under `src/` (`dacite/dataclasses.py`,
`dacite/exceptions.py`, `dacite/data.py`) are modelled from the spec where
needed; those definitions carry a `Modelled from the spec` doc comment.
-/

/-- Declared schema types (spec section 3, `DeclaredType`).  `tUnion` covers
Optional as a union containing `tNoneT`; `tTuple` is the fixed-arity tuple
form `Tuple[T1,...,Tn]` and `tTupleE` the homogeneous `Tuple[T, ...]` form
(the Ellipsis marker is absorbed into the constructor). -/
inductive DType where
  | tAny
  | tInt
  | tStr
  | tBool
  | tNoneT
  | tUnion (members : List DType)
  | tList (elem : DType)
  | tSet (elem : DType)
  | tDict (key : DType) (val : DType)
  | tTuple (slots : List DType)
  | tTupleE (elem : DType)
deriving Repr

/-- Runtime values (spec section 3, `RawValue`, plus constructed values).
Python set iteration order is abstracted as insertion order; `vDict` is an
association list in insertion order, like a Python dict. -/
inductive Val where
  | vNone
  | vInt (n : Int)
  | vStr (s : String)
  | vBool (b : Bool)
  | vList (xs : List Val)
  | vTuple (xs : List Val)
  | vSet (xs : List Val)
  | vDict (entries : List (Val × Val))
deriving Repr

mutual

/-- Structural equality of declared types, modelling Python `==` on typing
objects (used for dict keys in `type_hooks` and `union_matches`). -/
def DType.beq : DType → DType → Bool
  | .tAny, .tAny => true
  | .tInt, .tInt => true
  | .tStr, .tStr => true
  | .tBool, .tBool => true
  | .tNoneT, .tNoneT => true
  | .tUnion ms, .tUnion ns => DType.beqList ms ns
  | .tList a, .tList b => DType.beq a b
  | .tSet a, .tSet b => DType.beq a b
  | .tDict k v, .tDict k₂ v₂ => DType.beq k k₂ && DType.beq v v₂
  | .tTuple ss, .tTuple ts => DType.beqList ss ts
  | .tTupleE a, .tTupleE b => DType.beq a b
  | _, _ => false

/-- Pointwise `DType.beq` on lists of type arguments. -/
def DType.beqList : List DType → List DType → Bool
  | [], [] => true
  | a :: as, b :: bs => DType.beq a b && DType.beqList as bs
  | _, _ => false

end

/-- Identity test against `type(None)`, modelling `member is not type(None)`
(types.py:83) and `type(None) in ...` (types.py:79). -/
def DType.isNoneType : DType → Bool
  | .tNoneT => true
  | _ => false

/-- Origin container classes, the result of `extract_origin_collection`
(types.py:62-66): the runtime classes list, set, dict, tuple.  frozenset is
merged into `oSet` (types.py:131-132 treats both alike). -/
inductive Origin where
  | oList
  | oSet
  | oDict
  | oTuple
deriving Repr, DecidableEq

/-- Keys of the `type_hooks` mapping (config.py:7): the wildcard `Any`, the
bare `List`/`Dict` origin markers returned by `extract_origin_type`
(types.py:69-75), or an exact declared type. -/
inductive HookKey where
  | hAny
  | hListOrigin
  | hDictOrigin
  | hType (t : DType)
deriving Repr

/-- Equality of hook keys, via `DType.beq` for exact-type keys. -/
def HookKey.beq : HookKey → HookKey → Bool
  | .hAny, .hAny => true
  | .hListOrigin, .hListOrigin => true
  | .hDictOrigin, .hDictOrigin => true
  | .hType a, .hType b => DType.beq a b
  | _, _ => false

/-- Bare runtime classes eligible for the `cast` list (config.py:8). -/
inductive CastClass where
  | cInt
  | cStr
  | cBool
  | cNone
  | cList
  | cSet
  | cDict
  | cTuple
deriving Repr, DecidableEq

/-- Errors: the dacite exception hierarchy (modelled from the spec, section 3
`ConstructionError`, since `dacite/exceptions.py` is not under `src/`)
together with Python builtin exceptions (`pyError`, carrying the exception
class name).  Field errors carry a path of field names, outermost first.  -/
inductive DErr where
  | wrongType (path : List String) (fieldType : DType) (value : Val)
  | missingValue (path : List String)
  | unexpectedData (keys : List String)
  | unionMatch (path : List String) (fieldType : DType) (value : Val)
  | strictUnionMatch (path : List String) (unionMatches : List (DType × Val))
  | forwardReference (name : String)
  | pyError (kind : String)
deriving Repr

/-- Membership in the `DaciteError` class, as caught by
`except DaciteError` (core.py:130): every dacite error is one, Python
builtin exceptions are not. -/
def DErr.isDacite : DErr → Bool
  | .pyError _ => false
  | _ => true

/-- Membership in the `DaciteFieldError` class, as caught by
`except DaciteFieldError` (core.py:66): the path-carrying field errors.
Modelled from the spec, section 3 (`dacite/exceptions.py` is not under
`src/`). -/
def DErr.isFieldErr : DErr → Bool
  | .wrongType .. => true
  | .missingValue .. => true
  | .unionMatch .. => true
  | .strictUnionMatch .. => true
  | _ => false

/-- Path prefixing `error.update_path(field.name)` (core.py:67): a field
error gets the enclosing field name prepended; other errors pass through
unmodified (they are not caught by `except DaciteFieldError`).  Modelled from
the spec, section 3 (path invariant). -/
def DErr.updatePath (e : DErr) (name : String) : DErr :=
  match e with
  | .wrongType p t v => .wrongType (name :: p) t v
  | .missingValue p => .missingValue (name :: p)
  | .unionMatch p t v => .unionMatch (name :: p) t v
  | .strictUnionMatch p m => .strictUnionMatch (name :: p) m
  | e => e

/-- Configuration (config.py:5-13).  `forward_references` is omitted:
declared types arrive already resolved in this embedding (core.py:47-50).
Hooks are total functions; the cast list holds bare runtime classes. -/
structure Config where
  typeHooks : List (HookKey × (Val → Val)) := []
  cast : List CastClass := []
  checkTypes : Bool := true
  strict : Bool := false
  strictUnionsMatch : Bool := false
  allowMissingFieldsAsNone : Bool := false

/-- Lookup in the `type_hooks` dict. -/
def hookFor (hooks : List (HookKey × (Val → Val))) (k : HookKey) : Option (Val → Val) :=
  match hooks with
  | [] => none
  | (k₂, f) :: rest => if HookKey.beq k₂ k then some f else hookFor rest k

/-- Key under which a declared type is looked up in `type_hooks`: the type
itself, except that the declared type `Any` is the same dict key as the
wildcard (`Any in type_hooks`, types.py:11 and types.py:18 coincide). -/
def hookKeyOf (t : DType) : HookKey :=
  match t with
  | .tAny => .hAny
  | t => .hType t

/-- `is_union` (types.py:94-103).  In the embedded universe the
`types.UnionType` branch coincides with the typing-Union branch. -/
def is_union (t : DType) : Bool :=
  match t with
  | .tUnion _ => true
  | _ => false

/-- `extract_generic` (types.py:205-211): `type_.__args__ or defaults`.
An empty argument list is falsy in Python, hence yields `defaults`; scalars
and `Any` have no `__args__` (AttributeError, caught → `defaults`).  The
Ellipsis argument of `Tuple[T, ...]` is absorbed into the `tTupleE`
constructor, whose single element type is returned. -/
def extract_generic (t : DType) (defaults : List DType) : List DType :=
  match t with
  | .tUnion ms => if ms.isEmpty then defaults else ms
  | .tList e => [e]
  | .tSet e => [e]
  | .tDict k v => [k, v]
  | .tTuple ss => if ss.isEmpty then defaults else ss
  | .tTupleE e => [e]
  | _ => defaults

/-- `extract_generic_no_defaults` (types.py:214-220): `some` of the argument
list for parameterized generics, `none` (AttributeError) otherwise. -/
def extract_generic_no_defaults (t : DType) : Option (List DType) :=
  match t with
  | .tUnion ms => some ms
  | .tList e => some [e]
  | .tSet e => some [e]
  | .tDict k v => some [k, v]
  | .tTuple ss => some ss
  | .tTupleE e => some [e]
  | _ => none

/-- `is_optional` (types.py:78-79): a union whose members include
`type(None)`. -/
def is_optional (t : DType) : Bool :=
  is_union t && (extract_generic t []).any (fun member => member.isNoneType)

/-- `extract_optional` (types.py:82-87): the union members other than
`type(None)`, re-wrapped in `Union[...]` (a one-element union collapses to
the member itself); raises ValueError when no non-None member exists. -/
def extract_optional (optional : DType) : Except DErr DType :=
  match (extract_generic optional []).filter (fun member => !member.isNoneType) with
  | [] => .error (.pyError "ValueError")
  | [m] => .ok m
  | other_members => .ok (.tUnion other_members)

/-- `is_generic_collection` (types.py:191-198): the origin container is a
Collection subclass (list, set, dict, tuple in the embedded universe; the
numpy escape hatch of types.py:201-202 is vacuous here). -/
def is_generic_collection (t : DType) : Bool :=
  match t with
  | .tList _ => true
  | .tSet _ => true
  | .tDict _ _ => true
  | .tTuple _ => true
  | .tTupleE _ => true
  | _ => false

/-- `extract_origin_collection` (types.py:62-66): the runtime origin class of
a generic collection; `none` models the AttributeError for types without an
origin. -/
def extract_origin_collection (t : DType) : Option Origin :=
  match t with
  | .tList _ => some .oList
  | .tSet _ => some .oSet
  | .tDict _ _ => some .oDict
  | .tTuple _ => some .oTuple
  | .tTupleE _ => some .oTuple
  | _ => none

/-- `extract_origin_type` (types.py:69-75): the bare `List`/`Dict` typing
marker for list and dict origins, `none` otherwise. -/
def extract_origin_type (t : DType) : Option HookKey :=
  match extract_origin_collection t with
  | some .oList => some .hListOrigin
  | some .oDict => some .hDictOrigin
  | _ => none

/-- `is_set` (types.py:131-132) applied to an origin class: set and
frozenset (merged into `oSet`). -/
def is_set (o : Origin) : Bool :=
  match o with
  | .oSet => true
  | _ => false

/-- `is_subclass` (types.py:223-229) with a bare runtime class on the right,
as called from the cast loop (types.py:22-23) and `is_tuple` (types.py:107):
a generic collection is first reduced to its origin class; `issubclass` on a
non-class left argument (Any, Union) raises TypeError, caught → false.
Note `issubclass(bool, int)` holds in Python. -/
def is_subclass (sub_type : DType) (base_type : CastClass) : Bool :=
  if is_generic_collection sub_type then
    match extract_origin_collection sub_type, base_type with
    | some .oList, .cList => true
    | some .oSet, .cSet => true
    | some .oDict, .cDict => true
    | some .oTuple, .cTuple => true
    | _, _ => false
  else
    match sub_type, base_type with
    | .tInt, .cInt => true
    | .tBool, .cInt => true
    | .tBool, .cBool => true
    | .tStr, .cStr => true
    | .tNoneT, .cNone => true
    | _, _ => false

/-- `is_tuple` (types.py:106-107). -/
def is_tuple (t : DType) : Bool :=
  is_subclass t .cTuple

/-- `isinstance(value, origin)` for an origin container class, as used at
types.py:149, types.py:39 and core.py:97. -/
def is_instance_origin (value : Val) (o : Origin) : Bool :=
  match value, o with
  | .vList _, .oList => true
  | .vSet _, .oSet => true
  | .vDict _, .oDict => true
  | .vTuple _, .oTuple => true
  | _, _ => false

/-- Python iteration of a value, as consumed by `list(value)` (types.py:27),
`origin(... for single_val in data)` (core.py:100-102) and generator
comprehensions: lists, tuples and sets yield their elements, a string yields
its characters, a dict yields its keys, and scalars or None raise
TypeError. -/
def py_iter (value : Val) : Except DErr (List Val) :=
  match value with
  | .vList xs => .ok xs
  | .vTuple xs => .ok xs
  | .vSet xs => .ok xs
  | .vStr s => .ok (s.toList.map (fun c => .vStr (String.singleton c)))
  | .vDict entries => .ok (entries.map (fun p => p.1))
  | .vNone => .error (.pyError "TypeError")
  | .vInt _ => .error (.pyError "TypeError")
  | .vBool _ => .error (.pyError "TypeError")

/-- Python `str(value)` rendering for scalars (collection rendering is a
simple placeholder; no embedded claim depends on it). -/
def py_str (value : Val) : String :=
  match value with
  | .vStr s => s
  | .vInt n => toString n
  | .vBool true => "True"
  | .vBool false => "False"
  | .vNone => "None"
  | _ => "<collection>"

/-- Python truthiness, as used by `bool(value)`. -/
def py_truthy (value : Val) : Bool :=
  match value with
  | .vNone => false
  | .vInt n => n ≠ 0
  | .vBool b => b
  | .vStr s => s ≠ ""
  | .vList xs => !xs.isEmpty
  | .vTuple xs => !xs.isEmpty
  | .vSet xs => !xs.isEmpty
  | .vDict entries => !entries.isEmpty

/-- Decimal integer parsing for Python `int(string)`, written structurally
over the character list so that it evaluates by kernel reduction: an
optional leading minus sign followed by at least one digit; anything else
is a ValueError (`none`). -/
def py_parse_digits : List Char → Option Nat
  | [] => none
  | [c] => if c.isDigit then some (c.toNat - 48) else none
  | c :: rest =>
    if c.isDigit then
      match py_parse_digits rest with
      | some n => some ((c.toNat - 48) * 10 ^ rest.length + n)
      | none => none
    else none

/-- Python `int(s)` on a string value: optional sign, then digits. -/
def py_parse_int (s : String) : Option Int :=
  match s.toList with
  | '-' :: rest => (py_parse_digits rest).map (fun n => -(n : Int))
  | cs => (py_parse_digits cs).map (fun n => (n : Int))

/-- The constructor call `target_type(value)` of the cast step
(types.py:30) for non-collection targets: int/str/bool accept their usual
arguments (`int` of a non-numeric string is ValueError, of None a
TypeError); `type(None)` and typing constructs reject the call. -/
def py_call_type (t : DType) (value : Val) : Except DErr Val :=
  match t, value with
  | .tInt, .vInt n => .ok (.vInt n)
  | .tInt, .vBool b => .ok (.vInt (if b then 1 else 0))
  | .tInt, .vStr s =>
    match py_parse_int s with
    | some n => .ok (.vInt n)
    | none => .error (.pyError "ValueError")
  | .tInt, _ => .error (.pyError "TypeError")
  | .tStr, v => .ok (.vStr (py_str v))
  | .tBool, v => .ok (.vBool (py_truthy v))
  | _, _ => .error (.pyError "TypeError")

/-- The constructor call `origin_collection(value)` of the cast step
(types.py:28) and collection rebuilds: construct a list/tuple/set from any
iterable; `dict` accepts a dict (copy) and rejects other inputs in the
embedded universe. -/
def py_call_origin (o : Origin) (value : Val) : Except DErr Val :=
  match o, value with
  | .oDict, .vDict entries => .ok (.vDict entries)
  | .oDict, _ => .error (.pyError "TypeError")
  | .oList, v => (py_iter v).map .vList
  | .oTuple, v => (py_iter v).map .vTuple
  | .oSet, v => (py_iter v).map .vSet

mutual

/-- `is_instance` (types.py:142-188), the runtime value Matcher, restricted
to the embedded universe: `Any` always conforms; a union conforms when some
member does; a generic collection needs the right origin container, then
per-element conformance (tuples: the fixed form needs exact arity and
per-slot conformance, the Ellipsis form a uniform element type; dicts check
keys and values; the unparameterized-generic and `Tuple[()]` special cases,
NewType, Literal, InitVar, `Type[X]` and the float/complex numeric tower of
types.py:151-156 and types.py:170-185 are outside the universe); scalars use
`isinstance`, under which a bool is an int but not conversely. -/
def is_instance (value : Val) (t : DType) : Bool :=
  match t with
  | .tAny => true
  | .tUnion ms => any_member_instance value ms
  | .tList e =>
    match value with
    | .vList xs => all_elems_instance xs e
    | _ => false
  | .tSet e =>
    match value with
    | .vSet xs => all_elems_instance xs e
    | _ => false
  | .tDict kt vt =>
    match value with
    | .vDict entries => all_pairs_instance kt vt entries
    | _ => false
  | .tTuple ss =>
    match value with
    | .vTuple xs => if ss.length ≠ xs.length then false else all_zip_instance xs ss
    | _ => false
  | .tTupleE e =>
    match value with
    | .vTuple xs => all_elems_instance xs e
    | _ => false
  | .tInt =>
    match value with
    | .vInt _ => true
    | .vBool _ => true
    | _ => false
  | .tBool =>
    match value with
    | .vBool _ => true
    | _ => false
  | .tStr =>
    match value with
    | .vStr _ => true
    | _ => false
  | .tNoneT =>
    match value with
    | .vNone => true
    | _ => false
termination_by (sizeOf t, 1, 0)

/-- `any(is_instance(value, t) for t in extract_generic(type_))`
(types.py:146), in declaration order. -/
def any_member_instance (value : Val) (ms : List DType) : Bool :=
  match ms with
  | [] => false
  | m :: rest => is_instance value m || any_member_instance value rest
termination_by (sizeOf ms, 0, 0)

/-- `all(is_instance(item, elem) for item in value)` (types.py:158 and
types.py:169). -/
def all_elems_instance (xs : List Val) (e : DType) : Bool :=
  match xs with
  | [] => true
  | x :: rest => is_instance x e && all_elems_instance rest e
termination_by (sizeOf e, 2, xs.length)

/-- `all(is_instance(item, item_type) for item, item_type in
zip(value, tuple_types))` (types.py:162). -/
def all_zip_instance (xs : List Val) (ss : List DType) : Bool :=
  match xs, ss with
  | x :: xr, s :: sr => is_instance x s && all_zip_instance xr sr
  | _, _ => true
termination_by (sizeOf ss, 2, 0)

/-- Key and value conformance for every dict entry (types.py:163-168). -/
def all_pairs_instance (kt vt : DType) (entries : List (Val × Val)) : Bool :=
  match entries with
  | [] => true
  | (k, v) :: rest => is_instance k kt && is_instance v vt && all_pairs_instance kt vt rest
termination_by (1 + sizeOf kt + sizeOf vt, 0, entries.length)

end

/-- Application of the wildcard hook `if Any in type_hooks` (types.py:11-12). -/
def apply_any_hook (type_hooks : List (HookKey × (Val → Val))) (value : Val) : Val :=
  match hookFor type_hooks .hAny with
  | some f => f value
  | none => value

/-- Application of the origin-container hook (types.py:13-16): for a generic
collection whose origin is list or dict, a hook registered under the bare
`List`/`Dict` marker is applied to the whole collection. -/
def apply_origin_hook (type_hooks : List (HookKey × (Val → Val))) (target_type : DType)
    (value : Val) : Val :=
  if is_generic_collection target_type then
    match extract_origin_type target_type with
    | some collection_type =>
      match hookFor type_hooks collection_type with
      | some f => f value
      | none => value
    | none => value
  else value

/-- The cast loop of `transform_value` (types.py:21-31): the first cast-list
class of which the target is a subclass wins; a set-like target returns
`list(value)` from `transform_value` immediately (`Sum.inl`), any other hit
rebinds the value (`Sum.inr`) and breaks; no hit leaves the value unchanged. -/
def cast_value (cast : List CastClass) (target_type : DType) (value : Val) :
    Except DErr (Val ⊕ Val) :=
  match cast with
  | [] => .ok (.inr value)
  | cast_type :: rest =>
    if is_subclass target_type cast_type then
      if is_generic_collection target_type then
        match extract_origin_collection target_type with
        | some origin_collection =>
          if is_set origin_collection then
            match py_iter value with
            | .error e => .error e
            | .ok xs => .ok (.inl (.vList xs))
          else
            match py_call_origin origin_collection value with
            | .error e => .error e
            | .ok value₂ => .ok (.inr value₂)
        | none => .ok (.inr value)
      else
        match py_call_type target_type value with
        | .error e => .error e
        | .ok value₂ => .ok (.inr value₂)
    else cast_value rest target_type value

/-- Python dict insertion `union_matches[inner_type] = value` (core.py:127):
an existing key is overwritten in place, a new key is appended at the end. -/
def dict_insert (m : List (DType × Val)) (k : DType) (v : Val) : List (DType × Val) :=
  if m.any (fun p => DType.beq p.1 k) then
    m.map (fun p => if DType.beq p.1 k then (p.1, v) else p)
  else m ++ [(k, v)]


mutual

/-- `transform_value` (types.py:7-51), the value Transformer: wildcard hook,
then origin-container hook, then either the exact-type hook or the cast loop
(the exact hook suppresses the cast loop of the same invocation,
types.py:18-20; a set-like cast hit returns from the whole call,
types.py:27), after which Optional peeling (types.py:32-37: None
short-circuits, otherwise recurse on the non-None member union) and the
per-element transform for a collection value whose class matches the declared
origin (types.py:38-50: dicts rebuild with keys and values transformed
against the declared key/value types, other collections rebuild the value's
own class with every element transformed against
`extract_generic(target_type, (Any,))[0]`) still apply.  The `fuel` argument
models the finite Python call stack: recursion below it raises
RecursionError, and every statement proved about the function holds for
every sufficient budget. -/
def transform_value : Nat → List (HookKey × (Val → Val)) → List CastClass → DType → Val →
    Except DErr Val
  | 0, _, _, _, _ => .error (.pyError "RecursionError")
  | fuel + 1, type_hooks, cast, target_type, value =>
    let value := apply_any_hook type_hooks value
    let value := apply_origin_hook type_hooks target_type value
    match
      (match hookFor type_hooks (hookKeyOf target_type) with
       | some f => Except.ok (Sum.inr (f value))
       | none => cast_value cast target_type value) with
    | .error e => .error e
    | .ok (.inl returned) => .ok returned
    | .ok (.inr value) =>
      if is_optional target_type then
        match value with
        | .vNone => .ok .vNone
        | value =>
          match extract_optional target_type with
          | .ok peeled => transform_value fuel type_hooks cast peeled value
          | .error e => .error e
      else
        if is_generic_collection target_type
            && (match extract_origin_collection target_type with
                | some origin => is_instance_origin value origin
                | none => false) then
          match value, target_type with
          | .vDict entries, .tDict key_cls item_cls =>
            match transform_dict_pairs fuel type_hooks cast key_cls item_cls entries with
            | .error e => .error e
            | .ok entries₂ => .ok (.vDict entries₂)
          | .vList xs, .tList item_cls =>
            match transform_elems fuel type_hooks cast item_cls xs with
            | .error e => .error e
            | .ok xs₂ => .ok (.vList xs₂)
          | .vSet xs, .tSet item_cls =>
            match transform_elems fuel type_hooks cast item_cls xs with
            | .error e => .error e
            | .ok xs₂ => .ok (.vSet xs₂)
          | .vTuple xs, .tTupleE item_cls =>
            match transform_elems fuel type_hooks cast item_cls xs with
            | .error e => .error e
            | .ok xs₂ => .ok (.vTuple xs₂)
          | .vTuple xs, .tTuple (item_cls :: _) =>
            match transform_elems fuel type_hooks cast item_cls xs with
            | .error e => .error e
            | .ok xs₂ => .ok (.vTuple xs₂)
          | .vTuple xs, .tTuple [] =>
            match transform_elems fuel type_hooks cast .tAny xs with
            | .error e => .error e
            | .ok xs₂ => .ok (.vTuple xs₂)
          | _, _ => .ok value
        else .ok value

/-- Per-element transform `collection_cls(transform_value(...) for item in
value)` (types.py:49-50), materialized left to right; an element error
propagates like a Python exception escaping the generator. -/
def transform_elems : Nat → List (HookKey × (Val → Val)) → List CastClass → DType →
    List Val → Except DErr (List Val)
  | 0, _, _, _, _ => .error (.pyError "RecursionError")
  | _ + 1, _, _, _, [] => .ok []
  | fuel + 1, type_hooks, cast, item_cls, item :: rest =>
    match transform_value fuel type_hooks cast item_cls item with
    | .error e => .error e
    | .ok item₂ =>
      match transform_elems fuel type_hooks cast item_cls rest with
      | .error e => .error e
      | .ok rest₂ => .ok (item₂ :: rest₂)

/-- Per-entry transform of a dict value (types.py:41-48): every key is
transformed against the declared key type and every value against the
declared value type, rebuilding in iteration order. -/
def transform_dict_pairs : Nat → List (HookKey × (Val → Val)) → List CastClass → DType →
    DType → List (Val × Val) → Except DErr (List (Val × Val))
  | 0, _, _, _, _, _ => .error (.pyError "RecursionError")
  | _ + 1, _, _, _, _, [] => .ok []
  | fuel + 1, type_hooks, cast, key_cls, item_cls, (key, item) :: rest =>
    match transform_value fuel type_hooks cast key_cls key with
    | .error e => .error e
    | .ok key₂ =>
      match transform_value fuel type_hooks cast item_cls item with
      | .error e => .error e
      | .ok item₂ =>
        match transform_dict_pairs fuel type_hooks cast key_cls item_cls rest with
        | .error e => .error e
        | .ok rest₂ => .ok ((key₂, item₂) :: rest₂)

end

mutual

/-- `_build_value` (core.py:90-107), the Value Builder: unions delegate to
union resolution; a generic collection whose origin matches the value's
class delegates to collection reconstruction, a set-like origin otherwise
builds a set by constructing each element of any iterable (core.py:99-102);
everything else returns the value unchanged.  The `InitVar` unwrapping
(core.py:91-92) and the nested-dataclass branch (core.py:103-106) concern
types outside the embedded universe.  `fuel` models the finite Python call
stack. -/
def build_value : Nat → DType → Val → Config → Except DErr Val
  | 0, _, _, _ => .error (.pyError "RecursionError")
  | fuel + 1, type_, data, config =>
    if is_union type_ then
      build_value_for_union fuel type_ data config
    else
      if is_generic_collection type_ then
        match extract_origin_collection type_ with
        | some origin =>
          if is_instance_origin data origin then
            build_value_for_collection fuel type_ data config
          else
            if is_set origin then
              match py_iter data with
              | .error e => .error e
              | .ok elems =>
                match type_ with
                | .tSet elem =>
                  match build_elems fuel elem elems config with
                  | .error e => .error e
                  | .ok built => .ok (.vSet built)
                | _ => .ok data
            else .ok data
        | none => .ok data
      else .ok data

/-- `_build_value_for_union` (core.py:110-138): a 2-member Optional union
takes the fast path and builds against `types[0]`, the first declared
member (core.py:112-113); otherwise the members are probed in declaration
order by `union_loop`. -/
def build_value_for_union : Nat → DType → Val → Config → Except DErr Val
  | 0, _, _, _ => .error (.pyError "RecursionError")
  | fuel + 1, union, data, config =>
    match union with
    | .tUnion ms =>
      if is_optional union && ms.length == 2 then
        match ms with
        | t₀ :: _ => build_value fuel t₀ data config
        | [] => .ok data
      else
        union_loop fuel config union ms data []
    | _ => .ok data

/-- The member-probing loop of `_build_value_for_union` (core.py:114-138).
For each member: the transform runs on the carried `data` (which the source
rebinds at core.py:119, so a successful transform is re-used as input for
later members); a transform exception of any class skips the member
(core.py:122-123); a build error skips the member only if it is a
DaciteError (core.py:130-131), otherwise it propagates; a conforming built
value returns immediately in relaxed mode and is recorded in
`union_matches` in strict mode.  After the loop (core.py:132-138): strict
mode raises StrictUnionMatchError on more than one match and otherwise
returns `union_matches.popitem()[1]` — the most recently inserted entry,
KeyError on an empty dict; relaxed mode returns the carried data when type
checking is off, else raises UnionMatchError. -/
def union_loop : Nat → Config → DType → List DType → Val → List (DType × Val) →
    Except DErr Val
  | 0, _, _, _, _, _ => .error (.pyError "RecursionError")
  | _ + 1, config, union, [], data, union_matches =>
    if config.strictUnionsMatch then
      if union_matches.length > 1 then
        .error (.strictUnionMatch [] union_matches)
      else
        match union_matches.getLast? with
        | some kv => .ok kv.2
        | none => .error (.pyError "KeyError")
    else
      if !config.checkTypes then .ok data
      else .error (.unionMatch [] union data)
  | fuel + 1, config, union, inner_type :: rest, data, union_matches =>
    match transform_value fuel config.typeHooks config.cast inner_type data with
    | .error _ => union_loop fuel config union rest data union_matches
    | .ok data₂ =>
      match build_value fuel inner_type data₂ config with
      | .error e =>
        if e.isDacite then union_loop fuel config union rest data₂ union_matches
        else .error e
      | .ok value =>
        if is_instance value inner_type then
          if config.strictUnionsMatch then
            union_loop fuel config union rest data₂ (dict_insert union_matches inner_type value)
          else .ok value
        else union_loop fuel config union rest data₂ union_matches

/-- `_build_value_for_collection` (core.py:141-156): a Mapping rebuilds the
same dict class with each value built against
`extract_generic(collection, (Any, Any))[1]`; a tuple value distinguishes
empty input, the Ellipsis form, and the fixed form paired by `zip_longest`;
any other sequence rebuilds the value's own class with each element built
against `extract_generic(collection, (Any,))[0]`.  The fall-through arms
are unreachable because `_build_value` guards this call with
`is_instance(data, origin)` (core.py:97). -/
def build_value_for_collection : Nat → DType → Val → Config → Except DErr Val
  | 0, _, _, _ => .error (.pyError "RecursionError")
  | fuel + 1, collection, data, config =>
    match data with
    | .vDict entries =>
      match collection with
      | .tDict _ item_type =>
        match build_dict_vals fuel item_type entries config with
        | .error e => .error e
        | .ok entries₂ => .ok (.vDict entries₂)
      | _ => .ok data
    | .vTuple xs =>
      if xs.isEmpty then .ok (.vTuple [])
      else
        match collection with
        | .tTupleE elem =>
          match build_elems fuel elem xs config with
          | .error e => .error e
          | .ok built => .ok (.vTuple built)
        | .tTuple ss =>
          match build_zip fuel ss xs config with
          | .error e => .error e
          | .ok built => .ok (.vTuple built)
        | _ => .ok data
    | .vList xs =>
      match collection with
      | .tList elem =>
        match build_elems fuel elem xs config with
        | .error e => .error e
        | .ok built => .ok (.vList built)
      | _ => .ok data
    | .vSet xs =>
      match collection with
      | .tSet elem =>
        match build_elems fuel elem xs config with
        | .error e => .error e
        | .ok built => .ok (.vSet built)
      | _ => .ok data
    | _ => .ok data

/-- Elementwise `_build_value` over a collection (core.py:100-102,
core.py:151, core.py:156), materialized left to right. -/
def build_elems : Nat → DType → List Val → Config → Except DErr (List Val)
  | 0, _, _, _ => .error (.pyError "RecursionError")
  | _ + 1, _, [], _ => .ok []
  | fuel + 1, elem, item :: rest, config =>
    match build_value fuel elem item config with
    | .error e => .error e
    | .ok item₂ =>
      match build_elems fuel elem rest config with
      | .error e => .error e
      | .ok rest₂ => .ok (item₂ :: rest₂)

/-- The `zip_longest(data, types)` pairing of the fixed-arity tuple rebuild
(core.py:152-154): pairs run to the longer of the two lists; a missing
declared type is the fill value None and `_build_value(None, item)` returns
the item unchanged (no branch of core.py:90-107 applies to the type None);
a missing input element is the fill value None, built against the remaining
declared slot type. -/
def build_zip : Nat → List DType → List Val → Config → Except DErr (List Val)
  | 0, _, _, _ => .error (.pyError "RecursionError")
  | _ + 1, [], [], _ => .ok []
  | fuel + 1, type_ :: tr, item :: xr, config =>
    match build_value fuel type_ item config with
    | .error e => .error e
    | .ok item₂ =>
      match build_zip fuel tr xr config with
      | .error e => .error e
      | .ok rest₂ => .ok (item₂ :: rest₂)
  | fuel + 1, [], item :: xr, config =>
    match build_zip fuel [] xr config with
    | .error e => .error e
    | .ok rest₂ => .ok (item :: rest₂)
  | fuel + 1, type_ :: tr, [], config =>
    match build_value fuel type_ .vNone config with
    | .error e => .error e
    | .ok item₂ =>
      match build_zip fuel tr [] config with
      | .error e => .error e
      | .ok rest₂ => .ok (item₂ :: rest₂)

/-- The dict rebuild of `_build_value_for_collection` (core.py:145): keys
pass through unchanged, each value is built against the declared value
type. -/
def build_dict_vals : Nat → DType → List (Val × Val) → Config → Except DErr (List (Val × Val))
  | 0, _, _, _ => .error (.pyError "RecursionError")
  | _ + 1, _, [], _ => .ok []
  | fuel + 1, item_type, (key, value) :: rest, config =>
    match build_value fuel item_type value config with
    | .error e => .error e
    | .ok value₂ =>
      match build_dict_vals fuel item_type rest config with
      | .error e => .error e
      | .ok rest₂ => .ok ((key, value₂) :: rest₂)

end

/-- One declared field of a record type (spec section 3, `FieldSpec`): name,
resolved declared type, optional default value and constructor
participation.  `default` covers both `default` and `default_factory` of
the source dataclass machinery. -/
structure FieldSpec where
  name : String
  type : DType
  default : Option Val
  init : Bool := true

/-- Lookup `data[field.name]` in the raw mapping, with `field.name in data`
modelled by a `some` result. -/
def lookup_data (data : List (String × Val)) (key : String) : Option Val :=
  match data with
  | [] => none
  | (k, v) :: rest => if k == key then some v else lookup_data rest key

/-- Modelled from the spec: `get_default_value_for_field` lives in
`dacite/dataclasses.py`, which is not under `src/`.  Spec section 4.5:
attempt to supply a declared default; if none exists the lookup fails
(`DefaultValueNotFoundError`, turned into MissingValue by the caller),
unless `allow_missing_fields_as_none` permits substituting a null value
when the field's declared type accepts null. -/
def get_default_value_for_field (field : FieldSpec) (allow_missing_fields_as_none : Bool) :
    Option Val :=
  match field.default with
  | some v => some v
  | none =>
    if allow_missing_fields_as_none && is_optional field.type then some .vNone
    else none

/-- Modelled from the spec: `create_instance` lives in
`dacite/dataclasses.py`, which is not under `src/`.  Spec section 4.5 step
4: construct the record from the constructor-participating values, then
apply the non-constructor values through post-initialization; the resulting
instance is its field assignment. -/
def create_instance (init_values post_init_values : List (String × Val)) :
    List (String × Val) :=
  init_values ++ post_init_values

/-- The strict-mode key difference `set(data.keys()) - field names`
(core.py:53): raw keys without a declared field of that name, in data
order (raw data is a dict, so its keys are distinct). -/
def extra_fields (data_class_fields : List FieldSpec) (data : List (String × Val)) :
    List String :=
  (data.map (fun p => p.1)).filter
    (fun key => !(data_class_fields.any (fun f => f.name == key)))

/-- The per-field loop of `from_dict` (core.py:56-87): a field present in
the raw data is transformed and built (a DaciteFieldError from that gets
the field name prefixed to its path, core.py:66-68) and, under
`check_types`, must conform or WrongTypeError is raised (core.py:69-70); an
absent non-init field is skipped (core.py:71-74); an absent init field
receives its default, MissingValueError when none exists (core.py:75-81);
the value is recorded under `init_values` or `post_init_values` according
to `field.init` (core.py:82-85), and the record is assembled at the end
(core.py:87).  Fields do not consume `fuel`: each field's construction
starts from the same stack depth. -/
def from_dict_loop (fuel : Nat) (config : Config) (data : List (String × Val)) :
    List FieldSpec → List (String × Val) → List (String × Val) →
    Except DErr (List (String × Val))
  | [], init_values, post_init_values => .ok (create_instance init_values post_init_values)
  | field :: rest, init_values, post_init_values =>
    match lookup_data data field.name with
    | some field_data =>
      match
        (match transform_value fuel config.typeHooks config.cast field.type field_data with
         | .error e => Except.error e
         | .ok transformed => build_value fuel field.type transformed config) with
      | .error e => .error (e.updatePath field.name)
      | .ok value =>
        if config.checkTypes && !is_instance value field.type then
          .error (.wrongType [field.name] field.type value)
        else
          if field.init then
            from_dict_loop fuel config data rest (init_values ++ [(field.name, value)])
              post_init_values
          else
            from_dict_loop fuel config data rest init_values
              (post_init_values ++ [(field.name, value)])
    | none =>
      if !field.init then from_dict_loop fuel config data rest init_values post_init_values
      else
        match get_default_value_for_field field config.allowMissingFieldsAsNone with
        | some value =>
          from_dict_loop fuel config data rest (init_values ++ [(field.name, value)])
            post_init_values
        | none => .error (.missingValue [field.name])

/-- `from_dict` (core.py:36-87), the Record Assembler, for a record with
the given field list: under `strict`, raw keys outside the declared field
set abort the call with UnexpectedDataError before any field is processed
(core.py:52-55); otherwise the fields are processed in declaration order by
`from_dict_loop`.  Forward-reference resolution (core.py:47-50) is outside
this embedding: field types arrive resolved. -/
def from_dict (fuel : Nat) (data_class_fields : List FieldSpec)
    (data : List (String × Val)) (config : Config) : Except DErr (List (String × Val)) :=
  if config.strict && !(extra_fields data_class_fields data).isEmpty then
    .error (.unexpectedData (extra_fields data_class_fields data))
  else
    from_dict_loop fuel config data data_class_fields [] []

/-- Empty configuration: the defaults of config.py (type checking on, relaxed
unions, non-strict). -/
def cfg0 : Config := {}

/-- Configuration with `strict_unions_match` enabled. -/
def cfgS : Config := { strictUnionsMatch := true }

/-- Configuration with `cast = [int, str]`. -/
def cfgC : Config := { cast := [.cInt, .cStr] }

/-- Configuration with an exact-type hook on `bool` that increments an int
value (and leaves anything else unchanged). -/
def cfgH : Config :=
  { typeHooks := [(.hType .tBool, fun v => match v with | .vInt n => .vInt (n + 1) | v => v)] }

/-- Hook table with an identity hook on the exact type `List[int]` and an
incrementing hook on the exact type `int`. -/
def hooksC2 : List (HookKey × (Val → Val)) :=
  [(.hType (.tList .tInt), fun v => v),
   (.hType .tInt, fun v => match v with | .vInt n => .vInt (n + 1) | v => v)]

/-- C1: with `strict_unions_match`, the code scans all members and then, with
zero conforming matches, evaluates `union_matches.popitem()[1]` on an empty
dict and raises KeyError (core.py:135) — not the UnionMatchError the claim
and the spec state; the `raise UnionMatchError` right below (core.py:138) is
unreachable in strict mode, which marks the intent.  Exactly one match is
returned and more than one raises StrictUnionMatchError naming all matching
branches, as claimed.  The three conjuncts evaluate the code on a zero-match
input (None against int | str), a one-match input (3 against int | str) and
a two-match input (True against bool | int, a bool being an int). -/
theorem c1_strict_union_zero_one_many :
    build_value_for_union 100 (.tUnion [.tInt, .tStr]) .vNone cfgS =
        .error (.pyError "KeyError") ∧
      build_value_for_union 100 (.tUnion [.tInt, .tStr]) (.vInt 3) cfgS = .ok (.vInt 3) ∧
      build_value_for_union 100 (.tUnion [.tBool, .tInt]) (.vBool true) cfgS =
        .error (.strictUnionMatch [] [(.tBool, .vBool true), (.tInt, .vBool true)]) := by
  refine ⟨?_, ?_, ?_⟩ <;>
    simp [build_value_for_union, union_loop, transform_value, build_value, cast_value,
      apply_any_hook, apply_origin_hook, hookFor, hookKeyOf, is_instance, is_union,
      is_optional, is_generic_collection, extract_generic, cfgS, DType.isNoneType,
      dict_insert, DType.beq]

/-- C2 counterexample: an exact-type hook is not terminal.  With an identity
hook on the exact type `List[int]` and an incrementing hook on the exact
type `int`, transforming `[1]` against `List[int]` yields `[2]`: after the
exact hook ran, the per-element transform of types.py:38-50 still executed
and applied the `int` hook to the element, so the claimed result `[1]`
(hook output, then stop) is wrong. -/
theorem c2_exact_hook_counterexample :
    transform_value 100 hooksC2 [] (.tList .tInt) (.vList [.vInt 1]) =
        .ok (.vList [.vInt 2]) ∧
      Val.vList [.vInt 2] ≠ Val.vList [.vInt 1] := by
  refine ⟨rfl, ?_⟩
  simp

/-- C2 amended: an exact-type hook suppresses the cast step of the same
invocation only — for a declared type that is neither Optional nor a generic
collection the result is exactly the exact hook applied after the wildcard
hook, independent of the cast list; for Optional and collection targets the
optional unwrapping and the per-element transform still run afterwards on
the hook output (see the counterexample). -/
theorem c2_exact_hook_terminal_amended (fuel : Nat)
    (type_hooks : List (HookKey × (Val → Val))) (cast : List CastClass) (t : DType)
    (v : Val) (f : Val → Val) (h₁ : hookFor type_hooks (hookKeyOf t) = some f)
    (h₂ : is_optional t = false) (h₃ : is_generic_collection t = false) :
    transform_value (fuel + 1) type_hooks cast t v =
      .ok (f (apply_any_hook type_hooks v)) := by
  simp [transform_value, apply_origin_hook, h₁, h₂, h₃]

/-- C2 witness: the amended theorem at the `int` hook of `hooksC2`, value 1,
with a nonempty cast list that is visibly not applied. -/
theorem c2_exact_hook_terminal_amended_witness :
    transform_value 101 hooksC2 [.cStr] .tInt (.vInt 1) = .ok (.vInt 2) :=
  c2_exact_hook_terminal_amended 100 hooksC2 [.cStr] .tInt (.vInt 1)
    (fun v => match v with | .vInt n => .vInt (n + 1) | v => v) rfl rfl rfl

/-- C3: for an Optional field a raw null transforms to None immediately
(first conjunct, types.py:33-35), and for most member types the subsequent
build passes None through (third conjunct, an `Optional[int]` field).  But
the build step is still entered against the non-null member via the Optional
fast path (core.py:112-113), and for a set-like member `_build_value`
reaches the set branch (core.py:99-102) and iterates None: an
`Optional[Set[int]]` field given null raises TypeError instead of yielding
None (second conjunct), contradicting the claim. -/
theorem c3_optional_null_theorem :
    transform_value 100 [] [] (.tUnion [.tSet .tInt, .tNoneT]) .vNone = .ok .vNone ∧
      from_dict 100 [{ name := "x", type := .tUnion [.tSet .tInt, .tNoneT], default := none }]
          [("x", .vNone)] cfg0 = .error (.pyError "TypeError") ∧
      from_dict 100 [{ name := "y", type := .tUnion [.tInt, .tNoneT], default := none }]
          [("y", .vNone)] cfg0 = .ok [("y", .vNone)] := by
  refine ⟨rfl, rfl, ?_⟩
  simp [from_dict, from_dict_loop, extra_fields, lookup_data, transform_value, build_value,
    build_value_for_union, cast_value, apply_any_hook, apply_origin_hook, hookFor, hookKeyOf,
    is_instance, any_member_instance, is_union, is_optional, is_generic_collection,
    extract_generic, cfg0, DType.isNoneType, create_instance]

/-- C4 counterexample: `zip_longest` (core.py:152-154) pairs to the longer
length, not the shorter.  A `Tuple[int, int]` given a 3-element tuple
rebuilds all three elements, so the output has length 3 where the claim
(pairing with the shorter length) predicts length 2. -/
theorem c4_tuple_arity_counterexample :
    build_value 100 (.tTuple [.tInt, .tInt]) (.vTuple [.vInt 1, .vInt 2, .vInt 3]) cfg0 =
        .ok (.vTuple [.vInt 1, .vInt 2, .vInt 3]) ∧
      Val.vTuple [.vInt 1, .vInt 2, .vInt 3] ≠ Val.vTuple [.vInt 1, .vInt 2] := by
  refine ⟨rfl, ?_⟩
  simp

theorem build_zip_spec (fuel : Nat) :
    ∀ (ss : List DType) (xs : List Val) (config : Config) (r : List Val),
      build_zip fuel ss xs config = .ok r →
        r.length = max xs.length ss.length ∧ r.drop ss.length = xs.drop ss.length := by
  induction fuel with
  | zero => intro ss xs config r h; simp [build_zip] at h
  | succ n ih =>
    intro ss xs config r h
    cases ss with
    | nil =>
      cases xs with
      | nil =>
        simp only [build_zip] at h
        cases h
        simp
      | cons x xr =>
        simp only [build_zip] at h
        cases h₂ : build_zip n [] xr config with
        | error e => rw [h₂] at h; cases h
        | ok rest₂ =>
          rw [h₂] at h
          cases h
          obtain ⟨hl, hd⟩ := ih [] xr config rest₂ h₂
          constructor
          · simp [hl]
          · simpa using hd
    | cons t tr =>
      cases xs with
      | nil =>
        simp only [build_zip] at h
        cases hb : build_value n t .vNone config with
        | error e => rw [hb] at h; cases h
        | ok item₂ =>
          rw [hb] at h
          cases h₂ : build_zip n tr [] config with
          | error e => rw [h₂] at h; cases h
          | ok rest₂ =>
            rw [h₂] at h
            cases h
            obtain ⟨hl, hd⟩ := ih tr [] config rest₂ h₂
            constructor
            · simp [hl]
            · simpa using hd
      | cons x xr =>
        simp only [build_zip] at h
        cases hb : build_value n t x config with
        | error e => rw [hb] at h; cases h
        | ok item₂ =>
          rw [hb] at h
          cases h₂ : build_zip n tr xr config with
          | error e => rw [h₂] at h; cases h
          | ok rest₂ =>
            rw [h₂] at h
            cases h
            obtain ⟨hl, hd⟩ := ih tr xr config rest₂ h₂
            refine ⟨?_, ?_⟩
            · simp [hl]
              omega
            · simpa using hd

/-- C4 amended: the fixed-arity tuple rebuild pairs declared types with
input elements positionally to the longer of the two lengths and raises no
arity error at this stage: whenever the rebuild succeeds, the output length
is the maximum of the input length and the declared arity, and the elements
beyond the declared arity pass through unchanged (missing input elements
are filled with None and built against the remaining slot types; the
concrete conjunct shows `Tuple[int, int]` on the 1-element input `(7,)`
producing `(7, None)`).  Arity mismatches surface only later through the
Matcher's exact-length check when type checking is enabled. -/
theorem c4_tuple_arity_amended :
    (∀ (fuel : Nat) (ss : List DType) (xs : List Val) (config : Config) (r : List Val),
        build_zip fuel ss xs config = .ok r →
          r.length = max xs.length ss.length ∧ r.drop ss.length = xs.drop ss.length) ∧
      build_value 100 (.tTuple [.tInt, .tInt]) (.vTuple [.vInt 7]) cfg0 =
        .ok (.vTuple [.vInt 7, .vNone]) :=
  ⟨build_zip_spec, rfl⟩

/-- C4 witness: the amended theorem applied to the concrete rebuild of a
1-element tuple against `Tuple[int, int]`. -/
theorem c4_tuple_arity_amended_witness :
    ([Val.vInt 7, Val.vNone] : List Val).length = max 1 2 ∧
      ([Val.vInt 7, Val.vNone] : List Val).drop 2 = ([Val.vInt 7] : List Val).drop 2 :=
  c4_tuple_arity_amended.1 99 [.tInt, .tInt] [.vInt 7] cfg0 [.vInt 7, .vNone] rfl

/-- C5 counterexample: the 2-member Optional fast path builds against
`types[0]` (core.py:113), which is the non-null member only when it is
declared first.  With null declared first (`Union[None, Set[int]]`) a list
input passes through unchanged instead of being built into a set, while the
conventional order (`Union[Set[int], None]`) does build the set — the
branch the fast path builds against depends on declaration order. -/
theorem c5_optional_fast_path_counterexample :
    build_value 100 (.tUnion [.tNoneT, .tSet .tInt]) (.vList [.vInt 1]) cfg0 =
        .ok (.vList [.vInt 1]) ∧
      build_value 100 (.tUnion [.tSet .tInt, .tNoneT]) (.vList [.vInt 1]) cfg0 =
        .ok (.vSet [.vInt 1]) ∧
      Val.vList [.vInt 1] ≠ Val.vSet [.vInt 1] := by
  refine ⟨rfl, rfl, ?_⟩
  simp

/-- C5 amended: for every 2-member Optional union the fast path
unconditionally builds the value against the first declared member,
skipping the general member-scanning loop; with the conventional
`Optional[T]` layout the non-null member is first, so the fast path builds
against it, but with null declared first the value is built against the
null type, which returns it unchanged. -/
theorem c5_optional_fast_path_amended (fuel : Nat) (m₁ m₂ : DType) (data : Val)
    (config : Config) (h : is_optional (.tUnion [m₁, m₂]) = true) :
    build_value_for_union (fuel + 1) (.tUnion [m₁, m₂]) data config =
      build_value fuel m₁ data config := by
  simp [build_value_for_union, h]

/-- C5 witness: the amended theorem on `Union[None, Set[int]]` and a list
value. -/
theorem c5_optional_fast_path_amended_witness :
    build_value_for_union 101 (.tUnion [.tNoneT, .tSet .tInt]) (.vList [.vInt 1]) cfg0 =
      build_value 100 .tNoneT (.vList [.vInt 1]) cfg0 :=
  c5_optional_fast_path_amended 100 .tNoneT (.tSet .tInt) (.vList [.vInt 1]) cfg0 (by decide)

/-- C6 counterexample: in relaxed mode, a member whose build raises a
non-dacite error aborts the whole union instead of being skipped.  Against
`Union[Set[int], int]` with input 5, the `int` member is the first (and
only) member for which transform and build succeed with a conforming result
(first three conjuncts), so the claim predicts the value 5 — but the
`Set[int]` member's build iterates the non-iterable 5 (core.py:100-102) and
the TypeError escapes the `except DaciteError` handler (core.py:130),
aborting construction (last conjunct). -/
theorem c6_relaxed_union_counterexample :
    transform_value 100 [] [] .tInt (.vInt 5) = .ok (.vInt 5) ∧
      build_value 100 .tInt (.vInt 5) cfg0 = .ok (.vInt 5) ∧
      is_instance (.vInt 5) .tInt = true ∧
      build_value_for_union 100 (.tUnion [.tSet .tInt, .tInt]) (.vInt 5) cfg0 =
        .error (.pyError "TypeError") := by
  refine ⟨rfl, rfl, ?_, rfl⟩
  simp [is_instance]

/-- Reference resolution written from the amended wording of claim C6: scan
the members in declaration order, carrying the most recent successful
transform output; return the first member whose transform succeeds, whose
build succeeds and whose built value conforms; skip a member on transform
failure or on a dacite build error, abort on any other build error; with no
match, return the carried value when type checking is off and raise
UnionMatchError otherwise. -/
def relaxed_resolve : Nat → Config → DType → List DType → Val → Except DErr Val
  | 0, _, _, _, _ => .error (.pyError "RecursionError")
  | _ + 1, config, union, [], data =>
    if !config.checkTypes then .ok data else .error (.unionMatch [] union data)
  | fuel + 1, config, union, member :: rest, data =>
    match transform_value fuel config.typeHooks config.cast member data with
    | .error _ => relaxed_resolve fuel config union rest data
    | .ok transformed =>
      match build_value fuel member transformed config with
      | .error e =>
        if e.isDacite then relaxed_resolve fuel config union rest transformed
        else .error e
      | .ok value =>
        if is_instance value member then .ok value
        else relaxed_resolve fuel config union rest transformed

theorem union_loop_relaxed (fuel : Nat) (config : Config) (union : DType)
    (h : config.strictUnionsMatch = false) :
    ∀ (ts : List DType) (data : Val) (acc : List (DType × Val)),
      union_loop fuel config union ts data acc = relaxed_resolve fuel config union ts data := by
  induction fuel with
  | zero => intro ts data acc; rfl
  | succ n ih =>
    intro ts data acc
    cases ts with
    | nil => simp [union_loop, relaxed_resolve, h]
    | cons t rest =>
      simp only [union_loop, relaxed_resolve]
      cases htr : transform_value n config.typeHooks config.cast t data with
      | error e => simp [ih]
      | ok d₂ =>
        cases hb : build_value n t d₂ config with
        | error e => by_cases hd : e.isDacite <;> simp [hb, hd, ih]
        | ok v => by_cases hi : is_instance v t <;> simp [hb, hi, h, ih]

/-- C6 amended: in relaxed mode union construction is exactly the
first-match scan described by `relaxed_resolve` — members probed in
declaration order on the carried transformed value, the first member whose
transform and build succeed with a conforming result wins, transform
failures and dacite build errors skip the member, any other build error
aborts construction — and declaration order decides the winner when several
members could match: with `cast = [int, str]`, the raw string "5" resolves
to the integer 5 under `Union[int, str]` but stays the string "5" under
`Union[str, int]`. -/
theorem c6_relaxed_union_amended :
    (∀ (fuel : Nat) (config : Config) (union : DType) (ts : List DType) (data : Val)
        (acc : List (DType × Val)), config.strictUnionsMatch = false →
        union_loop fuel config union ts data acc =
          relaxed_resolve fuel config union ts data) ∧
      build_value_for_union 100 (.tUnion [.tInt, .tStr]) (.vStr "5") cfgC =
        .ok (.vInt 5) ∧
      build_value_for_union 100 (.tUnion [.tStr, .tInt]) (.vStr "5") cfgC =
        .ok (.vStr "5") ∧
      Val.vInt 5 ≠ Val.vStr "5" := by
  have e₁ : is_subclass DType.tInt CastClass.cInt = true := rfl
  have e₂ : is_subclass DType.tStr CastClass.cInt = false := rfl
  have e₃ : is_subclass DType.tStr CastClass.cStr = true := rfl
  have e₄ : py_parse_int "5" = some 5 := rfl
  have i₁ : is_instance (Val.vInt 5) DType.tInt = true := by simp [is_instance]
  have i₂ : is_instance (Val.vStr "5") DType.tStr = true := by simp [is_instance]
  have i₃ : is_instance (Val.vStr "5") DType.tInt = false := by simp [is_instance]
  refine ⟨fun fuel config union ts data acc h =>
    union_loop_relaxed fuel config union h ts data acc, ?_, ?_, ?_⟩ <;>
    simp [build_value_for_union, union_loop, transform_value, build_value, cast_value,
      apply_any_hook, apply_origin_hook, hookFor, hookKeyOf, is_union,
      is_optional, is_generic_collection, extract_generic, extract_origin_collection,
      py_call_type, py_str, cfgC, DType.isNoneType, e₁, e₂, e₃, e₄, i₁, i₂, i₃]

/-- C6 witness: the amended equivalence applied at a concrete relaxed
resolution. -/
theorem c6_relaxed_union_amended_witness :
    union_loop 10 cfg0 (.tUnion [.tInt]) [.tInt] (.vInt 3) [] =
      relaxed_resolve 10 cfg0 (.tUnion [.tInt]) [.tInt] (.vInt 3) :=
  c6_relaxed_union_amended.1 10 cfg0 (.tUnion [.tInt]) [.tInt] (.vInt 3) [] rfl

/-- C7: in strict mode, any raw key outside the declared field-name set
makes `from_dict` raise UnexpectedDataError carrying exactly the computed
key difference (core.py:52-55).  The theorem holds for every configuration,
every field list (whatever hooks, casts, defaults or declared types they
contain) and every raw mapping, which expresses that the abort happens
before any field is transformed, built or defaulted: no field processing
can influence or pre-empt the outcome. -/
theorem c7_strict_unexpected_keys (fuel : Nat) (data_class_fields : List FieldSpec)
    (data : List (String × Val)) (config : Config) (hs : config.strict = true)
    (hx : extra_fields data_class_fields data ≠ []) :
    from_dict fuel data_class_fields data config =
      .error (.unexpectedData (extra_fields data_class_fields data)) := by
  rw [from_dict]
  simp [hs, hx]

/-- C7 witness: spec scenario D — a strict record with field `a` given the
raw data with keys `a` and `b` fails with UnexpectedDataError naming
exactly `b`. -/
theorem c7_strict_unexpected_keys_witness :
    from_dict 100 [{ name := "a", type := .tInt, default := none }]
      [("a", .vInt 1), ("b", .vInt 2)] { strict := true } =
      .error (.unexpectedData ["b"]) :=
  c7_strict_unexpected_keys 100 [{ name := "a", type := .tInt, default := none }]
    [("a", .vInt 1), ("b", .vInt 2)] { strict := true } rfl (by decide)

theorem all_zip_instance_iff (xs : List Val) :
    ∀ ss : List DType, all_zip_instance xs ss = true ↔
      ∀ p ∈ xs.zip ss, is_instance p.1 p.2 = true := by
  induction xs with
  | nil => intro ss; cases ss <;> simp [all_zip_instance]
  | cons x xr ih =>
    intro ss
    cases ss with
    | nil => simp [all_zip_instance]
    | cons s sr => simp [all_zip_instance, ih]

/-- C8: the Matcher's conformance test for a fixed heterogeneous tuple type
requires exact length equality together with positional per-slot
conformance (types.py:159-162), and it returns a boolean — in this
embedding `is_instance` is a total Bool-valued function, so a length
mismatch yields `false` rather than an error.  The second conjunct is the
spec's concrete scenario E: a 3-element tuple fails conformance against
`Tuple[int, int]`. -/
theorem c8_fixed_tuple_conformance :
    (∀ (xs : List Val) (ss : List DType),
        is_instance (.vTuple xs) (.tTuple ss) = true ↔
          ss.length = xs.length ∧ ∀ p ∈ xs.zip ss, is_instance p.1 p.2 = true) ∧
      is_instance (.vTuple [.vInt 1, .vInt 2, .vInt 3]) (.tTuple [.tInt, .tInt]) = false := by
  refine ⟨fun xs ss => ?_, by simp [is_instance]⟩
  rw [is_instance]
  by_cases h : ss.length = xs.length
  · simp [h, all_zip_instance_iff]
  · simp [h]

/-- C8 witness: the conformance characterization applied to a concrete
1-element tuple. -/
theorem c8_fixed_tuple_conformance_witness :
    is_instance (.vTuple [.vInt 1]) (.tTuple [.tInt]) = true ↔
      ([DType.tInt].length = [Val.vInt 1].length ∧
        ∀ p ∈ [Val.vInt 1].zip [DType.tInt], is_instance p.1 p.2 = true) :=
  c8_fixed_tuple_conformance.1 [.vInt 1] [.tInt]

/-- C9: union-member probing carries the transformed value forward.  The
general conjunct states the loop equation: when a member's transform
succeeds, its build succeeds and the built value fails conformance, the
loop continues on the remaining members with the member's transformed
output — not the original raw value — as the new input (`data` is rebound
at core.py:119).  The concrete conjuncts make the mutation observable: with
an exact-type hook on `bool` that increments ints, probing `bool | int`
with raw 5 lets the non-matching `bool` member mutate the value to 6, which
the `int` member then returns — a restart-from-raw scan would have
returned 5. -/
theorem c9_union_probe_carries_value :
    (∀ (fuel : Nat) (config : Config) (union t : DType) (rest : List DType) (data : Val)
        (acc : List (DType × Val)) (d₂ v : Val),
        transform_value fuel config.typeHooks config.cast t data = .ok d₂ →
        build_value fuel t d₂ config = .ok v →
        is_instance v t = false →
        union_loop (fuel + 1) config union (t :: rest) data acc =
          union_loop fuel config union rest d₂ acc) ∧
      build_value_for_union 100 (.tUnion [.tBool, .tInt]) (.vInt 5) cfgH =
        .ok (.vInt 6) ∧
      Val.vInt 6 ≠ Val.vInt 5 := by
  refine ⟨fun fuel config union t rest data acc d₂ v h₁ h₂ h₃ => ?_, ?_, by simp⟩
  · simp [union_loop, h₁, h₂, h₃]
  · have i₁ : is_instance (Val.vInt 6) DType.tBool = false := by simp [is_instance]
    have i₂ : is_instance (Val.vInt 6) DType.tInt = true := by simp [is_instance]
    simp [build_value_for_union, union_loop, transform_value, build_value, cast_value,
      apply_any_hook, apply_origin_hook, hookFor, hookKeyOf, HookKey.beq, DType.beq,
      is_union, is_optional, is_generic_collection, extract_generic, cfgH,
      DType.isNoneType, i₁, i₂]

/-- C9 witness: the loop equation applied at the concrete probe of the
`bool` member with raw 5 under the incrementing hook. -/
theorem c9_union_probe_carries_value_witness :
    union_loop 101 cfgH (.tUnion [.tBool, .tInt]) [.tBool, .tInt] (.vInt 5) [] =
      union_loop 100 cfgH (.tUnion [.tBool, .tInt]) [.tInt] (.vInt 6) [] :=
  c9_union_probe_carries_value.1 100 cfgH (.tUnion [.tBool, .tInt]) .tBool [.tInt]
    (.vInt 5) [] (.vInt 6) (.vInt 6) rfl rfl (by simp [is_instance])

/-- C10: the `check_types` conformance check of `from_dict` (core.py:69-70)
sits inside the `field.name in data` branch, so it applies only to fields
present in the raw data.  The first general conjunct: a missing init field
with a declared default is bound directly, for every configuration —
including `check_types` on — and with no constraint on whether the default
conforms to the field's type.  The second: likewise for the None
substituted under `allow_missing_fields_as_none` for an Optional field
without a default.  The concrete conjuncts contrast the two paths for a
field `n : int` whose default is the non-conforming string "x": absent from
the data the instance is built with the string bound, present in the data
the same value raises WrongTypeError. -/
theorem c10_defaulted_fields_skip_check :
    (∀ (fuel : Nat) (config : Config) (data : List (String × Val)) (field : FieldSpec)
        (rest : List FieldSpec) (init post : List (String × Val)) (v : Val),
        lookup_data data field.name = none → field.init = true → field.default = some v →
        from_dict_loop fuel config data (field :: rest) init post =
          from_dict_loop fuel config data rest (init ++ [(field.name, v)]) post) ∧
      (∀ (fuel : Nat) (config : Config) (data : List (String × Val)) (field : FieldSpec)
        (rest : List FieldSpec) (init post : List (String × Val)),
        lookup_data data field.name = none → field.init = true → field.default = none →
        config.allowMissingFieldsAsNone = true → is_optional field.type = true →
        from_dict_loop fuel config data (field :: rest) init post =
          from_dict_loop fuel config data rest (init ++ [(field.name, .vNone)]) post) ∧
      from_dict 100 [{ name := "n", type := .tInt, default := some (.vStr "x") }] [] cfg0 =
        .ok [("n", .vStr "x")] ∧
      from_dict 100 [{ name := "n", type := .tInt, default := some (.vStr "x") }]
        [("n", .vStr "x")] cfg0 = .error (.wrongType ["n"] .tInt (.vStr "x")) := by
  refine ⟨fun fuel config data field rest init post v h₁ h₂ h₃ => ?_,
    fun fuel config data field rest init post h₁ h₂ h₃ h₄ h₅ => ?_, rfl, ?_⟩
  · simp [from_dict_loop, get_default_value_for_field, h₁, h₂, h₃]
  · simp [from_dict_loop, get_default_value_for_field, h₁, h₂, h₃, h₄, h₅]
  · have i₁ : is_instance (Val.vStr "x") DType.tInt = false := by simp [is_instance]
    simp [from_dict, from_dict_loop, extra_fields, lookup_data, transform_value,
      build_value, cast_value, apply_any_hook, apply_origin_hook, hookFor, hookKeyOf,
      is_union, is_optional, is_generic_collection, extract_generic, cfg0,
      DType.isNoneType, i₁]

/-- C10 witness: the defaulted-field equation applied to the field `n : int`
with default "x" and empty raw data under the default configuration with
type checking on. -/
theorem c10_defaulted_fields_skip_check_witness :
    from_dict_loop 100 cfg0 []
        [{ name := "n", type := .tInt, default := some (.vStr "x") }] [] [] =
      from_dict_loop 100 cfg0 [] [] [("n", .vStr "x")] [] :=
  c10_defaulted_fields_skip_check.1 100 cfg0 []
    { name := "n", type := .tInt, default := some (.vStr "x") } [] [] [] (.vStr "x")
    rfl rfl rfl
